import Mathlib

/-!
Verification of the core pipeline of `app.py` (Psimon8/TitleMetad):
credential lifecycle (`authenticate_user` / `load_credentials` / `save_credentials`),
the paginated Search Console fetcher (`fetch_search_console_data`),
the metadata scraper (`scrape_title_meta_description`) and the
gap analyzer (`identify_gaps`), shallowly embedded in Lean.
-/

namespace TitleMetad

/-! ### Paginated fetcher: `fetch_search_console_data` (app.py lines 99-133) -/

/-- A cell of the resulting DataFrame: the dimension values are strings
(`row['keys']`), the four metrics are numeric.  Floats (`ctr`, `position`)
are modelled as rationals; they are only carried, never computed with. -/
inductive Value
  | s (v : String)
  | n (v : ℚ)
  deriving DecidableEq

/-- One element of `response_data['rows']` of the remote analytics response:
`keys` (one value per requested dimension) plus the four metrics. -/
structure ResponseRow where
  keys : List String
  clicks : ℕ
  impressions : ℕ
  ctr : ℚ
  position : ℚ
  deriving DecidableEq

/-- The list comprehension of app.py line 120:
`row['keys'] + [row['clicks'], row['impressions'], row['ctr'], row['position']]`. -/
def rowToValues (r : ResponseRow) : List Value :=
  r.keys.map Value.s ++
    [Value.n r.clicks, Value.n r.impressions, Value.n r.ctr, Value.n r.position]

/-- One remote page response, as discriminated by the code:
`rows` = `'rows' in response_data` (possibly the empty list),
`noRows` = the key is absent (line 125), `error` = the request raised
`HttpError` (line 128). -/
inductive PageResponse
  | rows (rs : List ResponseRow)
  | noRows
  | error
  deriving DecidableEq

/-- Instrumentation of one issued page request: the `startRow` field the code
puts into the request body (line 114), together with the length of
`all_responses` at the moment the request is issued.  The remaining body
fields (`startDate`, `endDate`, `dimensions`, `dimensionFilterGroups`,
`rowLimit = 25000`, `dataState = "final"`) are constants of one fetch. -/
structure RequestRecord where
  startRow : ℕ
  accLen : ℕ
  deriving DecidableEq

/-- Result of the `while True` pagination loop (lines 106-131): the
accumulated `all_responses`, the trace of issued requests, and whether the
`HttpError` branch was taken (which shows `st.error` but still falls
through to the final `return`). -/
structure LoopOutcome where
  rows : List (List Value)
  requests : List RequestRecord
  errored : Bool
  deriving DecidableEq

/-- The pagination loop of lines 106-131, driven by a stub list of remote
responses (the response to the 1st, 2nd, ... issued request).  Returns
`none` when the loop would issue more requests than the stub provides. -/
def fetchLoop : List PageResponse → List (List Value) → ℕ → List RequestRecord →
    Option LoopOutcome
  | [], _, _, _ => none
  | PageResponse.rows rs :: rest, acc, start_row, reqs =>
    if rs.length < 25000 then
      some ⟨acc ++ rs.map rowToValues, reqs ++ [⟨start_row, acc.length⟩], false⟩
    else
      fetchLoop rest (acc ++ rs.map rowToValues) (start_row + rs.length)
        (reqs ++ [⟨start_row, acc.length⟩])
  | PageResponse.noRows :: _, acc, start_row, reqs =>
    some ⟨acc, reqs ++ [⟨start_row, acc.length⟩], false⟩
  | PageResponse.error :: _, acc, start_row, reqs =>
    some ⟨acc, reqs ++ [⟨start_row, acc.length⟩], true⟩

/-- The four metric columns appended to the dimension columns in the
`pd.DataFrame(..., columns=...)` call of line 133. -/
def metricColumns : List String := ["clicks", "impressions", "ctr", "position"]

/-- The DataFrame returned by `fetch_search_console_data` (line 133),
together with the request trace and the error flag. -/
structure FetchOutcome where
  columns : List String
  rows : List (List Value)
  requests : List RequestRecord
  errored : Bool
  deriving DecidableEq

/-- `fetch_search_console_data` (app.py lines 99-133): runs the pagination
loop starting from `all_responses = []`, `start_row = 0` and wraps the
accumulator into a DataFrame with columns
`dimensions + ['clicks', 'impressions', 'ctr', 'position']`.  Note that the
code reaches the final `return` on every loop exit, the `HttpError` branch
included. -/
def fetch_search_console_data (dimensions : List String)
    (responses : List PageResponse) : Option FetchOutcome :=
  (fetchLoop responses [] 0 []).map
    (fun o => ⟨dimensions ++ metricColumns, o.rows, o.requests, o.errored⟩)

/-- All remote rows carried by a stub response list. -/
def responseRows : List PageResponse → List ResponseRow
  | [] => []
  | PageResponse.rows rs :: rest => rs ++ responseRows rest
  | _ :: rest => responseRows rest

/-- A sample remote row used for concrete test inputs. -/
def row0 : ResponseRow := ⟨["https://example.com/"], 1, 2, 0, 1⟩

lemma fetchLoop_rows_short (rs : List ResponseRow) (rest acc sr reqs)
    (h : rs.length < 25000) :
    fetchLoop (PageResponse.rows rs :: rest) acc sr reqs =
      some ⟨acc ++ rs.map rowToValues, reqs ++ [⟨sr, acc.length⟩], false⟩ := by
  simp only [fetchLoop]
  rw [if_pos h]

lemma fetchLoop_rows_full (rs : List ResponseRow) (rest acc sr reqs)
    (h : rs.length = 25000) :
    fetchLoop (PageResponse.rows rs :: rest) acc sr reqs =
      fetchLoop rest (acc ++ rs.map rowToValues) (sr + rs.length)
        (reqs ++ [⟨sr, acc.length⟩]) := by
  simp only [fetchLoop]
  rw [if_neg (by omega)]

/-- C3: the pagination loop stops exactly at a short page
(`len(rows) < 25000`, line 123) or at a response without row data
(line 125); a full page of exactly 25000 rows always leads to one more
request.  Concretely: a stub with 25000 rows on page 0 and no rows on
page 1 yields a 25000-row table in exactly 2 requests, and a stub with 100
rows on page 0 yields a 100-row table in exactly 1 request. -/
theorem fetch_pagination_termination :
    (∀ rs rest acc sr reqs, rs.length < 25000 →
      fetchLoop (PageResponse.rows rs :: rest) acc sr reqs =
        some ⟨acc ++ rs.map rowToValues, reqs ++ [⟨sr, acc.length⟩], false⟩) ∧
    (∀ rs rest acc sr reqs, rs.length = 25000 →
      fetchLoop (PageResponse.rows rs :: rest) acc sr reqs =
        fetchLoop rest (acc ++ rs.map rowToValues) (sr + 25000)
          (reqs ++ [⟨sr, acc.length⟩])) ∧
    (∀ rest acc sr reqs,
      fetchLoop (PageResponse.noRows :: rest) acc sr reqs =
        some ⟨acc, reqs ++ [⟨sr, acc.length⟩], false⟩) ∧
    ((fetch_search_console_data ["page"]
        [PageResponse.rows (List.replicate 25000 row0), PageResponse.noRows]).map
        (fun o => (o.rows.length, o.requests.length, o.errored)) =
      some (25000, 2, false)) ∧
    ((fetch_search_console_data ["page"]
        [PageResponse.rows (List.replicate 100 row0)]).map
        (fun o => (o.rows.length, o.requests.length, o.errored)) =
      some (100, 1, false)) := by
  refine ⟨fun rs rest acc sr reqs h => fetchLoop_rows_short rs rest acc sr reqs h,
    fun rs rest acc sr reqs h => ?_, fun rest acc sr reqs => rfl, ?_, ?_⟩
  · rw [← h]
    exact fetchLoop_rows_full rs rest acc sr reqs h
  · rw [fetch_search_console_data,
      fetchLoop_rows_full _ _ _ _ _ (List.length_replicate 25000 row0)]
    simp only [fetchLoop, Option.map_some']
    simp only [List.nil_append, List.length_map, List.length_replicate, List.length_append,
      List.length_cons, List.length_nil]
  · rw [fetch_search_console_data,
      fetchLoop_rows_short _ _ _ _ _ (by rw [List.length_replicate]; omega)]
    simp only [Option.map_some']
    simp only [List.nil_append, List.length_map, List.length_replicate, List.length_cons,
      List.length_nil]

/-- Witness for C3: the short-page equation at an empty page, and the
full-page continuation equation at a page of exactly 25000 rows. -/
theorem fetch_pagination_termination_witness :
    fetchLoop [PageResponse.rows []] [] 0 [] = some ⟨[], [⟨0, 0⟩], false⟩ ∧
    fetchLoop [PageResponse.rows (List.replicate 25000 row0)] [] 0 [] =
      fetchLoop [] (List.map rowToValues (List.replicate 25000 row0)) 25000 [⟨0, 0⟩] :=
  ⟨fetch_pagination_termination.1 [] [] [] 0 [] (by decide),
   fetch_pagination_termination.2.1 (List.replicate 25000 row0) [] [] 0 []
     (List.length_replicate 25000 row0)⟩

lemma fetchLoop_full_pages_then_error :
    ∀ (pages : List (List ResponseRow)) acc sr reqs,
      (∀ p ∈ pages, p.length = 25000) →
      ∃ reqs2,
        fetchLoop (pages.map PageResponse.rows ++ [PageResponse.error]) acc sr reqs =
          some ⟨acc ++ (pages.flatten).map rowToValues, reqs2, true⟩ ∧
        reqs2.length = reqs.length + pages.length + 1 := by
  intro pages
  induction pages with
  | nil =>
    intro acc sr reqs _
    refine ⟨reqs ++ [⟨sr, acc.length⟩], ?_, by simp⟩
    simp [fetchLoop]
  | cons p pages ih =>
    intro acc sr reqs h
    have hp : p.length = 25000 := h p (List.mem_cons_self p pages)
    rw [List.map_cons, List.cons_append, fetchLoop_rows_full _ _ _ _ _ hp]
    obtain ⟨reqs2, h1, h2⟩ := ih (acc ++ p.map rowToValues) (sr + p.length)
      (reqs ++ [⟨sr, acc.length⟩]) (fun q hq => h q (List.mem_cons_of_mem _ hq))
    refine ⟨reqs2, ?_, ?_⟩
    · rw [h1]
      simp [List.append_assoc]
    · simp only [List.length_append, List.length_cons, List.length_nil] at h2 ⊢
      omega

/-- C1 (amended): a page request that raises `HttpError` stops pagination
(line 131 `break`), shows an error message, and `fetch_search_console_data`
then returns the rows accumulated from the earlier successful pages as its
normal return value (line 133): the partial table IS returned to the
caller, no exception propagates.  For any run of full pages followed by an
erroring page, the result carries exactly the already-fetched rows. -/
theorem fetch_page_error_keeps_rows :
    ∀ dims (pages : List (List ResponseRow)), (∀ p ∈ pages, p.length = 25000) →
      (fetch_search_console_data dims
          (pages.map PageResponse.rows ++ [PageResponse.error])).map
        (fun o => (o.errored, o.rows, o.requests.length)) =
      some (true, (pages.flatten).map rowToValues, pages.length + 1) := by
  intro dims pages h
  obtain ⟨reqs2, h1, h2⟩ := fetchLoop_full_pages_then_error pages [] 0 [] h
  rw [fetch_search_console_data, h1]
  simp only [List.length_nil, Nat.zero_add] at h2
  simp [h2]

/-- Witness for C1's amended theorem: with no successful page before the
error, the fetch returns an empty (but real) table after 1 request. -/
theorem fetch_page_error_keeps_rows_witness :
    (fetch_search_console_data ["page"] [PageResponse.error]).map
      (fun o => (o.errored, o.rows, o.requests.length)) = some (true, [], 1) :=
  fetch_page_error_keeps_rows ["page"] [] (by simp)

/-- C1 counterexample: after a successful full page of 25000 rows, an
`HttpError` on page 1 does NOT make the fetch fail with no table — the
caller receives a 25000-row table (the rows accumulated before the error),
contradicting the claim that partial tables are never returned. -/
theorem fetch_page_error_cex :
    (fetch_search_console_data ["page"]
        [PageResponse.rows (List.replicate 25000 row0), PageResponse.error]).map
        (fun o => (o.errored, o.rows.length)) = some (true, 25000) := by
  rw [fetch_search_console_data,
    fetchLoop_rows_full _ _ _ _ _ (List.length_replicate 25000 row0)]
  simp only [fetchLoop, Option.map_some']
  simp only [List.nil_append, List.length_map, List.length_replicate]

lemma fetchLoop_requests_inv :
    ∀ (responses : List PageResponse) acc sr reqs o,
      sr = acc.length → (∀ rec ∈ reqs, rec.startRow = rec.accLen) →
      fetchLoop responses acc sr reqs = some o →
      ∀ rec ∈ o.requests, rec.startRow = rec.accLen := by
  intro responses
  induction responses with
  | nil =>
    intro acc sr reqs o _ _ h
    exact absurd h (by simp [fetchLoop])
  | cons resp rest ih =>
    intro acc sr reqs o hsr hreqs h
    have hreqs' : ∀ rec ∈ reqs ++ [(⟨sr, acc.length⟩ : RequestRecord)],
        rec.startRow = rec.accLen := by
      intro rec hrec
      rcases List.mem_append.mp hrec with h1 | h1
      · exact hreqs rec h1
      · rw [List.mem_singleton.mp h1]
        exact hsr
    cases resp with
    | rows rs =>
      simp only [fetchLoop] at h
      split at h
      · obtain rfl := Option.some.inj h
        exact hreqs'
      · exact ih _ _ _ o (by simp [hsr]) hreqs' h
    | noRows =>
      simp only [fetchLoop] at h
      obtain rfl := Option.some.inj h
      exact hreqs'
    | error =>
      simp only [fetchLoop] at h
      obtain rfl := Option.some.inj h
      exact hreqs'

/-- C10: loop invariant of the pagination loop — at the moment each page
request is issued, the request body's `startRow` (line 114) equals the
number of rows accumulated in `all_responses` so far (`start_row` starts
at 0 with an empty accumulator, line 103-104, and both advance together by
`len(response_data['rows'])`, lines 120-122): no offset is skipped or
requested twice. -/
theorem fetch_start_row_invariant :
    ∀ dims responses o, fetch_search_console_data dims responses = some o →
      o.requests.all (fun rec => rec.startRow == rec.accLen) = true := by
  intro dims responses o h
  rw [fetch_search_console_data] at h
  obtain ⟨lo, hlo, rfl⟩ := Option.map_eq_some'.mp h
  rw [List.all_eq_true]
  exact fun rec hrec =>
    beq_iff_eq.mpr (fetchLoop_requests_inv responses [] 0 [] lo rfl (by simp) hlo rec hrec)

/-- The concrete outcome of fetching a single one-row page. -/
def outcome0 : FetchOutcome :=
  ⟨["page", "clicks", "impressions", "ctr", "position"], [rowToValues row0], [⟨0, 0⟩], false⟩

/-- Witness for C10 at a concrete one-page fetch. -/
theorem fetch_start_row_invariant_witness :
    outcome0.requests.all (fun rec => rec.startRow == rec.accLen) = true :=
  fetch_start_row_invariant ["page"] [PageResponse.rows [row0]] outcome0 rfl

lemma fetchLoop_rows_sources :
    ∀ (responses : List PageResponse) acc sr reqs o,
      fetchLoop responses acc sr reqs = some o →
      ∀ t ∈ o.rows, t ∈ acc ∨ ∃ r, r ∈ responseRows responses ∧ t = rowToValues r := by
  intro responses
  induction responses with
  | nil =>
    intro acc sr reqs o h
    exact absurd h (by simp [fetchLoop])
  | cons resp rest ih =>
    intro acc sr reqs o h t ht
    cases resp with
    | rows rs =>
      have hsplit : ∀ u : List Value, u ∈ acc ++ rs.map rowToValues →
          u ∈ acc ∨ ∃ r, r ∈ responseRows (PageResponse.rows rs :: rest) ∧
            u = rowToValues r := by
        intro u hu
        rcases List.mem_append.mp hu with h1 | h1
        · exact Or.inl h1
        · obtain ⟨r, hr, rfl⟩ := List.mem_map.mp h1
          exact Or.inr ⟨r, by simp [responseRows, hr], rfl⟩
      simp only [fetchLoop] at h
      split at h
      · obtain rfl := Option.some.inj h
        exact hsplit t ht
      · rcases ih _ _ _ o h t ht with h1 | ⟨r, hr, rfl⟩
        · exact hsplit t h1
        · exact Or.inr ⟨r, by simp [responseRows]; exact Or.inr hr, rfl⟩
    | noRows =>
      simp only [fetchLoop] at h
      obtain rfl := Option.some.inj h
      exact Or.inl ht
    | error =>
      simp only [fetchLoop] at h
      obtain rfl := Option.some.inj h
      exact Or.inl ht

lemma rowToValues_cells (r : ResponseRow) :
    (rowToValues r)[r.keys.length]? = some (Value.n r.clicks) ∧
    (rowToValues r)[r.keys.length + 1]? = some (Value.n r.impressions) := by
  constructor <;>
    · rw [rowToValues, List.getElem?_append_right (by simp)]
      simp

/-- C9: the table built on line 133 has schema exactly
`dimensions + ['clicks', 'impressions', 'ctr', 'position']`, and every row
of it is the verbatim translation of one remote row (line 120), so when
all remote rows satisfy `clicks ≤ impressions` so does every table row; in
particular (given remote rows with one key per dimension) the clicks cell
of each row is at most its impressions cell. -/
theorem fetch_schema_and_metrics :
    ∀ dims responses o,
      fetch_search_console_data dims responses = some o →
      (∀ r ∈ responseRows responses, r.clicks ≤ r.impressions) →
      o.columns = dims ++ ["clicks", "impressions", "ctr", "position"] ∧
      (∀ t ∈ o.rows, ∃ r, r ∈ responseRows responses ∧ t = rowToValues r ∧
        r.clicks ≤ r.impressions) ∧
      ((∀ r ∈ responseRows responses, r.keys.length = dims.length) →
        ∀ t ∈ o.rows, ∃ c i : ℕ, t[dims.length]? = some (Value.n c) ∧
          t[dims.length + 1]? = some (Value.n i) ∧ c ≤ i) := by
  intro dims responses o h hle
  rw [fetch_search_console_data] at h
  obtain ⟨lo, hlo, rfl⟩ := Option.map_eq_some'.mp h
  refine ⟨rfl, ?_, ?_⟩
  · intro t ht
    rcases fetchLoop_rows_sources responses [] 0 [] lo hlo t ht with h1 | ⟨r, hr, rfl⟩
    · simp at h1
    · exact ⟨r, hr, rfl, hle r hr⟩
  · intro hkeys t ht
    rcases fetchLoop_rows_sources responses [] 0 [] lo hlo t ht with h1 | ⟨r, hr, rfl⟩
    · simp at h1
    · refine ⟨r.clicks, r.impressions, ?_, ?_, hle r hr⟩
      · rw [← hkeys r hr]
        exact (rowToValues_cells r).1
      · rw [← hkeys r hr]
        exact (rowToValues_cells r).2

/-- Witness for C9 at a concrete one-page fetch. -/
theorem fetch_schema_and_metrics_witness :
    outcome0.columns = ["page"] ++ ["clicks", "impressions", "ctr", "position"] :=
  (fetch_schema_and_metrics ["page"] [PageResponse.rows [row0]] outcome0 rfl (by decide)).1

/-! ### Gap analyzer: `identify_gaps` (app.py lines 153-169) -/

/-- One row of the DataFrame consumed by `identify_gaps`; only the columns
the function reads (`page`, `query`, `clicks`, `impressions`) are
modelled. -/
structure AnalyticsRow where
  page : String
  query : String
  clicks : ℕ
  impressions : ℕ
  deriving DecidableEq

/-- Helper of `pySplit`: walk the characters, accumulating the current
word (reversed); whitespace flushes the accumulator, so no empty word is
ever emitted. -/
def splitLoop : List Char → List Char → List String
  | [], acc => if acc = [] then [] else [String.mk acc.reverse]
  | c :: cs, acc =>
    if c.isWhitespace then
      if acc = [] then splitLoop cs []
      else String.mk acc.reverse :: splitLoop cs []
    else splitLoop cs (c :: acc)

/-- Python's `str.split()` with no argument: split on whitespace runs; it
never produces empty strings. -/
def pySplit (s : String) : List String := splitLoop s.data []

/-- Python's `str.lower()` (per-character case folding). -/
def pyLower (s : String) : String := String.mk (s.data.map Char.toLower)

/-- Iteration order of a Python `Counter`/`dict`: keys in first-occurrence
order. -/
def firstOccurrences (ts : List String) : List String :=
  ts.foldl (fun acc t => if t ∈ acc then acc else acc ++ [t]) []

/-- Python string comparison: lexicographic on code points (used by
`pandas.groupby`, which sorts group keys ascending by default). -/
def charListLe : List Char → List Char → Bool
  | [], _ => true
  | _ :: _, [] => false
  | a :: as, b :: bs =>
    if a.toNat < b.toNat then true
    else if b.toNat < a.toNat then false
    else charListLe as bs

def pyStrLe (a b : String) : Prop := charListLe a.data b.data = true

instance : DecidableRel pyStrLe := fun a b =>
  inferInstanceAs (Decidable (charListLe a.data b.data = true))

/-- `df[df['page'] == selected_url]` (line 155). -/
def pageRows (df : List AnalyticsRow) (selected_url : String) : List AnalyticsRow :=
  df.filter (fun r => r.page == selected_url)

/-- The `query` column of `page_data.groupby('query')...reset_index()`
(lines 156-159): the distinct query strings, sorted ascending, because
`groupby` sorts group keys by default. -/
def groupedQueries (df : List AnalyticsRow) (selected_url : String) : List String :=
  List.insertionSort pyStrLe (firstOccurrences ((pageRows df selected_url).map (fun r => r.query)))

/-- One row of `page_data_grouped` (lines 156-159): a distinct query with
its summed clicks and impressions.  The sums are computed but never used
by the ranking. -/
structure GroupedRow where
  query : String
  clicks : ℕ
  impressions : ℕ
  deriving DecidableEq

def page_data_grouped (df : List AnalyticsRow) (selected_url : String) : List GroupedRow :=
  (groupedQueries df selected_url).map (fun q =>
    ⟨q,
     ((pageRows df selected_url).filter (fun r => r.query == q)).foldl
       (fun s r => s + r.clicks) 0,
     ((pageRows df selected_url).filter (fun r => r.query == q)).foldl
       (fun s r => s + r.impressions) 0⟩)

/-- The token list comprehension of lines 161-163.  The stopword list
(`stopwords.words('english')` from NLTK, an external downloaded resource)
is passed as the parameter `sw`. -/
def tokensOf (df : List AnalyticsRow) (selected_url : String) (sw : List String) :
    List String :=
  (page_data_grouped df selected_url).flatMap (fun g =>
    ((pySplit g.query).map pyLower).filter (fun w => !(sw.contains w)))

/-- `Counter(tokens).items()` (lines 165-166): each distinct token, in
first-occurrence order, with its number of occurrences. -/
def counterItems (ts : List String) : List (String × ℕ) :=
  (firstOccurrences ts).map (fun t => (t, ts.count t))

/-- Ascending comparison by the `count` column. -/
def countLE (a b : String × ℕ) : Prop := a.2 ≤ b.2

instance : DecidableRel countLE := fun a b => Nat.decLe a.2 b.2

instance : IsTotal (String × ℕ) countLE := ⟨fun a b => Nat.le_total a.2 b.2⟩

instance : IsTrans (String × ℕ) countLE := ⟨fun _ _ _ hab hbc => Nat.le_trans hab hbc⟩

/-- Descending comparison by the `count` column. -/
def countGE (a b : String × ℕ) : Prop := b.2 ≤ a.2

/-- `token_counts_df.sort_values(by='count', ascending=False)` (line 167):
pandas computes an ascending argsort and reverses the whole indexer, so
equal counts come out in reversed input order.  (numpy's default sort on
the short arrays arising here behaves as a stable insertion sort, modelled
by `List.insertionSort`.) -/
def sort_values_desc_by_count (items : List (String × ℕ)) : List (String × ℕ) :=
  (List.insertionSort countLE items).reverse

/-- `identify_gaps` (app.py lines 153-169):
`token_counts_df.head(10)['token'].tolist()` of the sorted counts. -/
def identify_gaps (df : List AnalyticsRow) (selected_url : String) (sw : List String) :
    List String :=
  ((sort_values_desc_by_count (counterItems (tokensOf df selected_url sw))).take 10).map
    Prod.fst

/-- The three-query table of the C2 ranking-determinism scenario. -/
def exampleDf : List AnalyticsRow :=
  [⟨"p", "red shoes", 1, 1⟩, ⟨"p", "red socks", 1, 1⟩, ⟨"p", "blue socks", 1, 1⟩]

/-- C2 counterexample: ties are NOT broken by first-occurrence order.  For
the single query "alpha beta" (empty stopword set) the token stream is
`[alpha, beta]`, both with count 1, so a stable first-occurrence tie-break
would return `["alpha", "beta"]`; the code's descending sort reverses the
ascending order and returns `["beta", "alpha"]`. -/
theorem identify_gaps_tie_order_cex :
    identify_gaps [⟨"p", "alpha beta", 1, 1⟩] "p" [] = ["beta", "alpha"] ∧
    identify_gaps [⟨"p", "alpha beta", 1, 1⟩] "p" [] ≠ ["alpha", "beta"] := by
  decide

/-- C2 (amended): the returned gap terms are sorted by token frequency
descending, but equal frequencies appear in REVERSED first-occurrence
order (the descending sort reverses a stable ascending sort); on the
claim's concrete input the returned order is nevertheless exactly
`red, socks, shoes, blue`, because `groupby` first sorts the distinct
queries alphabetically. -/
theorem identify_gaps_order :
    identify_gaps exampleDf "p" [] = ["red", "socks", "shoes", "blue"] ∧
    (∀ df selected_url sw, identify_gaps df selected_url sw =
      ((sort_values_desc_by_count (counterItems (tokensOf df selected_url sw))).take 10).map
        Prod.fst) ∧
    (∀ df selected_url sw, List.Sorted countGE
      (sort_values_desc_by_count (counterItems (tokensOf df selected_url sw)))) := by
  refine ⟨by decide, fun _ _ _ => rfl, fun df u sw => ?_⟩
  rw [sort_values_desc_by_count]
  exact List.pairwise_reverse.mpr
    (List.sorted_insertionSort countLE (counterItems (tokensOf df u sw)))

/-- C5 counterexample: a pure-punctuation token is NOT excluded from the
counting — for the query "shoes !" (empty stopword set) the token "!" is
returned as a gap term, where the claim requires it to be dropped. -/
theorem identify_gaps_punctuation_cex :
    "!" ∈ identify_gaps [⟨"p", "shoes !", 1, 1⟩] "p" [] := by
  decide

lemma splitLoop_mem_ne_nil :
    ∀ (cs acc : List Char) w, w ∈ splitLoop cs acc → w ≠ "" := by
  intro cs
  induction cs with
  | nil =>
    intro acc w hw
    by_cases h : acc = []
    · simp [splitLoop, h] at hw
    · rw [splitLoop, if_neg h, List.mem_singleton] at hw
      subst hw
      intro he
      exact h (List.reverse_eq_nil_iff.mp (congrArg String.data he))
  | cons c cs ih =>
    intro acc w hw
    rw [splitLoop] at hw
    split at hw
    · split at hw
      · exact ih [] w hw
      next h =>
        rcases List.mem_cons.mp hw with h1 | h1
        · subst h1
          intro he
          exact h (List.reverse_eq_nil_iff.mp (congrArg String.data he))
        · exact ih [] w h1
    · exact ih (c :: acc) w hw

/-- C5 (amended): empty tokens indeed cannot arise (Python's `split()`
drops empty strings), but tokens made of pure punctuation are counted like
any other token — only membership in the stopword set filters a token. -/
theorem split_tokens_nonempty_punctuation_kept :
    (∀ q w, w ∈ pySplit q → w ≠ "") ∧
    identify_gaps [⟨"p", "shoes !", 1, 1⟩] "p" [] = ["!", "shoes"] := by
  exact ⟨fun q w hw => splitLoop_mem_ne_nil q.data [] w hw, by decide⟩

/-- Witness for C5's amended theorem: "shoes" is a (nonempty) token of
splitting "shoes !". -/
theorem split_tokens_nonempty_witness : ("shoes" : String) ≠ "" :=
  split_tokens_nonempty_punctuation_kept.1 "shoes !" "shoes" (by decide)

/-- C6: a `selected_url` matching no row of the table makes
`identify_gaps` return the empty list; every step of the pipeline is total
on the empty filtered frame, so no error is raised. -/
theorem identify_gaps_no_match_empty :
    ∀ df selected_url sw, (∀ r ∈ df, r.page ≠ selected_url) →
      identify_gaps df selected_url sw = [] := by
  intro df u sw h
  have hf : pageRows df u = [] := by
    rw [pageRows, List.filter_eq_nil_iff]
    intro r hr
    simpa using h r hr
  simp [identify_gaps, tokensOf, page_data_grouped, groupedQueries, counterItems,
    sort_values_desc_by_count, firstOccurrences, hf]

/-- Witness for C6: a one-row table and a URL matching nothing. -/
theorem identify_gaps_no_match_empty_witness :
    identify_gaps [⟨"https://a/", "q", 1, 1⟩] "no-such-page" [] = [] :=
  identify_gaps_no_match_empty [⟨"https://a/", "q", 1, 1⟩] "no-such-page" [] (by decide)

/-! ### Metadata probe: `scrape_title_meta_description` (app.py lines 135-151) -/

/-- The `<title>` element of the fetched page, as BeautifulSoup reports
it: absent, or present with `soup.title.string` either `None` (empty or
multi-child tag) or an actual string. -/
inductive TitleTag
  | absent
  | present (str : Option String)
  deriving DecidableEq

/-- The `<meta name="description">` tag: absent, present without a
`content` attribute, or present with a `content` value. -/
inductive MetaTag
  | absent
  | noContentAttr
  | withContent (s : String)
  deriving DecidableEq

/-- The parsed page the success path of the scraper inspects. -/
structure Page where
  titleTag : TitleTag
  metaTag : MetaTag
  deriving DecidableEq

/-- Outcome of `requests.get` + `raise_for_status` (lines 142-143): any
`requests.RequestException` (timeouts and HTTP error statuses included) is
caught by the handler of line 149; otherwise the body is parsed. -/
inductive HttpOutcome
  | requestException
  | ok (page : Page)
  deriving DecidableEq

/-- A Python exception escaping the function: `meta_description_tag['content']`
raises `KeyError` when the tag has no `content` attribute (line 147), and
`except requests.RequestException` does not catch it. -/
inductive ScrapeError
  | keyError
  deriving DecidableEq

/-- `scrape_title_meta_description` (app.py lines 135-151).  The returned
components are `Option String` because `soup.title.string` is `None` for a
title tag without a single string child. -/
def scrape_title_meta_description (r : HttpOutcome) :
    Except ScrapeError (Option String × Option String) :=
  match r with
  | .requestException =>
    .ok (some "Error fetching title", some "Error fetching meta description")
  | .ok page =>
    let title : Option String :=
      match page.titleTag with
      | .absent => some "No title found"
      | .present str => str
    match page.metaTag with
    | .absent => .ok (title, some "No meta description found")
    | .noContentAttr => .error .keyError
    | .withContent s => .ok (title, some s)

/-- Is the result a normally returned pair of two non-null strings? -/
def nonNullPair (e : Except ScrapeError (Option String × Option String)) : Bool :=
  match e with
  | .ok (some _, some _) => true
  | _ => false

/-- C4 counterexample: on a page whose title tag has no single string
child and whose description meta tag lacks a `content` attribute, the
scraper raises `KeyError` outward (and the title it computed was `None`),
contradicting "never raises outward and always returns a pair of non-null
strings". -/
theorem scrape_raises_cex :
    scrape_title_meta_description (.ok ⟨.present none, .noContentAttr⟩) =
      .error .keyError := rfl

/-- C4 (amended): a network failure (`requests.RequestException`,
timeouts and HTTP error statuses included) yields the sentinel pair; an
absent title tag or an absent description tag yields the documented
sentinel; but when the description tag exists without a `content`
attribute the function raises `KeyError`, and a title tag without a single
string child produces a `None` title — so the non-null/never-raise
guarantee holds only away from those two cases. -/
theorem scrape_sentinel_cases :
    scrape_title_meta_description .requestException =
      .ok (some "Error fetching title", some "Error fetching meta description") ∧
    (∀ p ts, p.titleTag = .present (some ts) → p.metaTag ≠ .noContentAttr →
      nonNullPair (scrape_title_meta_description (.ok p)) = true) ∧
    (∀ p, p.titleTag = .absent → p.metaTag ≠ .noContentAttr →
      nonNullPair (scrape_title_meta_description (.ok p)) = true) := by
  refine ⟨rfl, fun p ts h1 h2 => ?_, fun p h1 h2 => ?_⟩
  · cases p with
    | mk t m =>
      obtain rfl : t = TitleTag.present (some ts) := h1
      cases m with
      | absent => rfl
      | noContentAttr => exact absurd rfl h2
      | withContent s => rfl
  · cases p with
    | mk t m =>
      obtain rfl : t = TitleTag.absent := h1
      cases m with
      | absent => rfl
      | noContentAttr => exact absurd rfl h2
      | withContent s => rfl

/-- Witness for C4's amended theorem: a page with a string title and no
description tag gives a non-null pair. -/
theorem scrape_sentinel_cases_witness :
    nonNullPair (scrape_title_meta_description (.ok ⟨.present (some "T"), .absent⟩)) = true :=
  scrape_sentinel_cases.2.1 ⟨.present (some "T"), .absent⟩ "T" rfl (by decide)

/-! ### Credential lifecycle: `load_credentials`, `save_credentials`,
`authenticate_user` (app.py lines 32-88) -/

/-- The opaque Google credentials object.  `valid` and `expired` are the
values the external `google.oauth2` object reports at the two places the
code reads them (`credentials.valid` inside `load_credentials` line 39,
`credentials.expired` inside `authenticate_user` line 57); they are
modelled as independent booleans because the two reads happen at different
instants.  `token_id` distinguishes credential objects. -/
structure Credentials where
  token_id : ℕ
  refresh_token : Option String
  valid : Bool
  expired : Bool
  deriving DecidableEq

/-- Python truthiness of the `refresh_token` attribute (a string or
`None`). -/
def pyTruthyOpt (o : Option String) : Bool :=
  match o with
  | none => false
  | some s => s != ""

/-- What happens inside `load_credentials` (lines 32-43): the token file
may be missing (line 36), reading/unpickling may raise (caught on
line 41), the pickle may hold `None`, or it holds a credentials object. -/
inductive LoadOutcome
  | fileMissing
  | raises
  | loadedNone
  | loaded (c : Credentials)
  deriving DecidableEq

/-- What happens in the re-authorization branch (lines 67-86): the flow
setup or the token exchange may raise (caught on line 84), the user may
not have entered a code yet (line 78 is falsy), or `fetch_token` succeeds
and `flow.credentials` is a new credentials object. -/
inductive FlowOutcome
  | raises
  | noCode
  | exchanged (c : Credentials)
  deriving DecidableEq

/-- The external world one call of `authenticate_user` interacts with:
what the store holds, whether `credentials.refresh(Request())` succeeds
(and with what refreshed object), whether writing the token file succeeds,
and how the authorization-code exchange goes. -/
structure AuthEnv where
  load : LoadOutcome
  refresh_result : Option Credentials
  save_ok : Bool
  flow : FlowOutcome
  deriving DecidableEq

/-- `load_credentials` (lines 32-43): returns the stored credentials only
when present and `credentials.valid`; every failure path returns `None`. -/
def load_credentials (env : AuthEnv) : Option Credentials :=
  match env.load with
  | .loaded c => if c.valid then some c else none
  | _ => none

/-- Record of one `save_credentials` call (lines 45-51): the function
catches every exception itself, so it always returns; `failed` records
that the error was logged. -/
structure SaveTrace where
  attempted : Bool
  failed : Bool
  deriving DecidableEq

/-- `save_credentials` (lines 45-51): never raises — a failing write is
logged and swallowed. -/
def save_credentials (save_ok : Bool) : SaveTrace := ⟨true, !save_ok⟩

/-- The observable result of `authenticate_user`: the returned credentials
(`None` on the fall-through paths), whether `credentials.refresh` was
invoked (line 59), whether the re-authorization branch was entered
(lines 67-86), and the trace of `save_credentials` calls. -/
structure AuthResult where
  credentials : Option Credentials
  refresh_invoked : Bool
  exchange_invoked : Bool
  saves : List SaveTrace
  deriving DecidableEq

/-- The `if not credentials:` branch of lines 67-86. -/
def flowBranch (env : AuthEnv) : AuthResult :=
  match env.flow with
  | .raises => ⟨none, false, true, []⟩
  | .noCode => ⟨none, false, true, []⟩
  | .exchanged c => ⟨some c, false, true, [save_credentials env.save_ok]⟩

/-- `authenticate_user` (app.py lines 53-88). -/
def authenticate_user (env : AuthEnv) : AuthResult :=
  match load_credentials env with
  | some c =>
    if c.expired && pyTruthyOpt c.refresh_token then
      match env.refresh_result with
      | some c' => ⟨some c', true, false, [save_credentials env.save_ok]⟩
      | none =>
        let fr := flowBranch env
        ⟨fr.credentials, true, fr.exchange_invoked, fr.saves⟩
    else
      ⟨some c, false, false, []⟩
  | none => flowBranch env

/-- C7: a stored session that is `Valid` (reported valid by the library
and not expired) is returned unchanged by `authenticate_user`, with no
refresh call, no re-authorization exchange and no persistence write. -/
theorem authenticate_valid_reuses_session :
    ∀ env c, env.load = .loaded c → c.valid = true → c.expired = false →
      authenticate_user env = ⟨some c, false, false, []⟩ := by
  intro env c hload hvalid hexp
  rw [authenticate_user, load_credentials, hload]
  simp [hvalid, hexp]

/-- Witness for C7 at a concrete valid stored session. -/
theorem authenticate_valid_reuses_session_witness :
    authenticate_user ⟨.loaded ⟨7, some "r", true, false⟩, none, true, .raises⟩ =
      ⟨some ⟨7, some "r", true, false⟩, false, false, []⟩ :=
  authenticate_valid_reuses_session _ ⟨7, some "r", true, false⟩ rfl rfl rfl

/-- C8: both transitions that produce a new or refreshed session — the
refresh path (lines 57-62) and the code-exchange path (lines 78-83) —
still return the new session when persisting it fails: `save_credentials`
logs the failure (`attempted = true`, `failed = true`) and the transition
does not fail. -/
theorem authenticate_save_failure_keeps_session :
    (∀ env c c', env.load = .loaded c → c.valid = true → c.expired = true →
      pyTruthyOpt c.refresh_token = true → env.refresh_result = some c' →
      env.save_ok = false →
      authenticate_user env = ⟨some c', true, false, [⟨true, true⟩]⟩) ∧
    (∀ env c', env.load = .fileMissing → env.flow = .exchanged c' →
      env.save_ok = false →
      authenticate_user env = ⟨some c', false, true, [⟨true, true⟩]⟩) := by
  constructor
  · intro env c c' hload hvalid hexp htok href hsave
    rw [authenticate_user, load_credentials, hload]
    simp [hvalid, hexp, htok, href, save_credentials, hsave]
  · intro env c' hload hflow hsave
    rw [authenticate_user, load_credentials, hload]
    simp [flowBranch, hflow, save_credentials, hsave]

/-- Witness for C8: both transition kinds at concrete environments with a
failing store. -/
theorem authenticate_save_failure_keeps_session_witness :
    authenticate_user ⟨.loaded ⟨1, some "r", true, true⟩, some ⟨2, some "r", true, false⟩,
        false, .raises⟩ =
      ⟨some ⟨2, some "r", true, false⟩, true, false, [⟨true, true⟩]⟩ ∧
    authenticate_user ⟨.fileMissing, none, false, .exchanged ⟨3, some "r", true, false⟩⟩ =
      ⟨some ⟨3, some "r", true, false⟩, false, true, [⟨true, true⟩]⟩ :=
  ⟨authenticate_save_failure_keeps_session.1 _ ⟨1, some "r", true, true⟩
     ⟨2, some "r", true, false⟩ rfl rfl rfl rfl rfl rfl,
   authenticate_save_failure_keeps_session.2 _ ⟨3, some "r", true, false⟩ rfl rfl rfl⟩

end TitleMetad
